import Mathlib

/-!
Shallow embedding of the frame-rendering core of the `vkism` repository:
`src/render/render_target.rs` and `src/render/primary_renderer.rs`
(with the command-recording scope of `src/render/command_buffer.rs`).

Vulkan handles are modelled as natural numbers; the numeric constants below
are the actual values of the corresponding constants of the external `ash`
(Vulkan) API, which the source uses.  Stateful rendering code is modelled as
explicit state passing producing a trace of events; the asynchronous GPU is
modelled by a per-slot flag recording whether the slot's completion fence is
signaled or has a pending signal from a submitted batch (a fence-wait
completes exactly when this flag is true; a wait on a fence that is reset
with no pending signal blocks forever, since the source waits with an
unbounded timeout).
-/

namespace Vkism

/-- Numeric values of the external Vulkan constants used by the source
(`ash::vk::ImageLayout`, `AccessFlags2`, `PipelineStageFlags2`,
`PipelineStageFlags`, `AttachmentLoadOp`, `AttachmentStoreOp`,
`ImageAspectFlags`, `VK_QUEUE_FAMILY_IGNORED`). -/
def LAYOUT_UNDEFINED : Nat := 0

def LAYOUT_COLOR_ATTACHMENT_OPTIMAL : Nat := 2

def LAYOUT_PRESENT_SRC_KHR : Nat := 1000001002

def ACCESS2_NONE : Nat := 0

def ACCESS2_COLOR_ATTACHMENT_WRITE : Nat := 256

def STAGE2_TOP_OF_PIPE : Nat := 1

def STAGE2_COLOR_ATTACHMENT_OUTPUT : Nat := 1024

def STAGE2_BOTTOM_OF_PIPE : Nat := 8192

def STAGE_TOP_OF_PIPE : Nat := 1

def LOAD_OP_LOAD : Nat := 0

def LOAD_OP_CLEAR : Nat := 1

def STORE_OP_STORE : Nat := 0

def ASPECT_COLOR : Nat := 1

def QUEUE_FAMILY_IGNORED : Nat := 4294967295

/-- Model of `vk::ClearValue`: an opaque value, identified by a number;
`vk::ClearValue::default()` is modelled as `0`. -/
abbrev ClearValue := Nat

def ClearValue.defaultValue : ClearValue := 0

/-- Model of `vk::Extent2D`. -/
structure Extent2D where
  width : Nat
  height : Nat
deriving DecidableEq, Repr

/-- Model of `vk::Rect2D`. -/
structure Rect2D where
  offset_x : Nat
  offset_y : Nat
  extent : Extent2D
deriving DecidableEq, Repr

/-- Model of `Rect2D::from(extent)`: zero offset, the given extent. -/
def Rect2D.fromExtent (e : Extent2D) : Rect2D :=
  { offset_x := 0, offset_y := 0, extent := e }

/-- `FrameRenderAttachmentImageStateExternal` (render_target.rs:16-21). -/
structure FrameRenderAttachmentImageStateExternal where
  layout : Nat
  access : Nat
  queue_family : Nat
deriving DecidableEq, Repr

/-- `FrameRenderAttachment` (render_target.rs:23-29). -/
structure FrameRenderAttachment where
  image : Nat
  image_view : Nat
  format : Nat
  initial_state : FrameRenderAttachmentImageStateExternal
  final_state : FrameRenderAttachmentImageStateExternal
deriving DecidableEq, Repr

/-- `FrameRenderInfo` (render_target.rs:31-35). -/
structure FrameRenderInfo where
  color_attachments : List FrameRenderAttachment
  extent : Extent2D
  image_index : Nat
deriving DecidableEq, Repr

/-- `FrameSyncInfo` (render_target.rs:37-40): semaphore handles. -/
structure FrameSyncInfo where
  image_available : Nat
  render_finished : Nat
deriving DecidableEq, Repr

/-- `vk::ImageSubresourceRange` as built by the source. -/
structure ImageSubresourceRange where
  aspect_mask : Nat
  base_mip_level : Nat
  level_count : Nat
  base_array_layer : Nat
  layer_count : Nat
deriving DecidableEq, Repr, Inhabited

/-- The single-mip single-layer color subresource range used in
primary_renderer.rs:110-116 and 148-154. -/
def colorSubresourceRange : ImageSubresourceRange :=
  { aspect_mask := ASPECT_COLOR, base_mip_level := 0, level_count := 1,
    base_array_layer := 0, layer_count := 1 }

/-- `ImageTransition` (command_buffer.rs:43-58); a state is
(stage flags, layout, access flags, queue family). -/
structure ImageTransition where
  image : Nat
  subresource_range : ImageSubresourceRange
  src_state : Nat × Nat × Nat × Nat
  dst_state : Nat × Nat × Nat × Nat
deriving DecidableEq, Repr, Inhabited

/-- The per-attachment body of the `filter_map` building `image_transitions_1`
(primary_renderer.rs:96-131): `none` when the declared initial state is
already (COLOR_ATTACHMENT_OPTIMAL, COLOR_ATTACHMENT_WRITE, family 0),
otherwise a transition from the declared initial state to that state. -/
def preTransition (a : FrameRenderAttachment) : Option ImageTransition :=
  if a.initial_state.layout = LAYOUT_COLOR_ATTACHMENT_OPTIMAL ∧
      a.initial_state.access = ACCESS2_COLOR_ATTACHMENT_WRITE ∧
      a.initial_state.queue_family = 0 then
    none
  else
    some { image := a.image
           subresource_range := colorSubresourceRange
           src_state := (STAGE2_TOP_OF_PIPE, a.initial_state.layout,
                         a.initial_state.access, a.initial_state.queue_family)
           dst_state := (STAGE2_COLOR_ATTACHMENT_OUTPUT,
                         LAYOUT_COLOR_ATTACHMENT_OPTIMAL,
                         ACCESS2_COLOR_ATTACHMENT_WRITE, 0) }

/-- The per-attachment body of the `filter_map` building `image_transitions_2`
(primary_renderer.rs:133-169): `none` when the declared final state is
already the canonical writable state, otherwise a transition from the
canonical writable state to the declared final state. -/
def postTransition (a : FrameRenderAttachment) : Option ImageTransition :=
  if a.final_state.layout = LAYOUT_COLOR_ATTACHMENT_OPTIMAL ∧
      a.final_state.access = ACCESS2_COLOR_ATTACHMENT_WRITE ∧
      a.final_state.queue_family = 0 then
    none
  else
    some { image := a.image
           subresource_range := colorSubresourceRange
           src_state := (STAGE2_TOP_OF_PIPE, LAYOUT_COLOR_ATTACHMENT_OPTIMAL,
                         ACCESS2_COLOR_ATTACHMENT_WRITE, 0)
           dst_state := (STAGE2_BOTTOM_OF_PIPE, a.final_state.layout,
                         a.final_state.access, a.final_state.queue_family) }

/-- `image_transitions_1` (primary_renderer.rs:96-131). -/
def imageTransitions1 (atts : List FrameRenderAttachment) : List ImageTransition :=
  atts.filterMap preTransition

/-- `image_transitions_2` (primary_renderer.rs:133-169). -/
def imageTransitions2 (atts : List FrameRenderAttachment) : List ImageTransition :=
  atts.filterMap postTransition

/-- The fields of `vk::RenderingAttachmentInfo` set in
primary_renderer.rs:183-191. -/
structure RenderingAttachmentInfo where
  image_layout : Nat
  load_op : Nat
  clear_value : ClearValue
  store_op : Nat
  image_view : Nat
deriving DecidableEq, Repr

/-- The per-attachment rendering-info list (primary_renderer.rs:176-193):
attachment `i` takes `clear_values.get(i).cloned().unwrap_or(None)`;
a `Some` entry gives load op CLEAR with that value, a `None` (or absent)
entry gives load op LOAD with the default clear value. -/
def colorAttachmentInfos (clear_values : List (Option ClearValue))
    (atts : List FrameRenderAttachment) : List RenderingAttachmentInfo :=
  atts.enum.map (fun p =>
    let clear_value := clear_values.getD p.1 none
    { image_layout := LAYOUT_COLOR_ATTACHMENT_OPTIMAL
      load_op := match clear_value with
        | none => LOAD_OP_LOAD
        | some _ => LOAD_OP_CLEAR
      clear_value := clear_value.getD ClearValue.defaultValue
      store_op := STORE_OP_STORE
      image_view := p.2.image_view })

/-- The fields of `vk::RenderingInfo` set in primary_renderer.rs:195-201. -/
structure RenderingInfoM where
  render_area : Rect2D
  color_attachments : List RenderingAttachmentInfo
  layer_count : Nat
  view_mask : Nat
deriving DecidableEq, Repr

/-- Observable events of one or more render cycles: the native calls the
renderer and the render target issue, in order.  `waitFence` records the
fence handle together with whether the fence is signaled or has a pending
signal (`false` means the unbounded wait of begin_frame blocks forever).
`queueSubmit` records (queue, wait semaphore, wait stage, signal semaphore,
fence) as in primary_renderer.rs:214-228; `queuePresent` records the waited
semaphore and the presented image index as in render_target.rs:277-292. -/
inductive Ev where
  | waitFence (fence : Nat) (willSignal : Bool)
  | resetFence (fence : Nat)
  | beginCommandBuffer (ok : Bool)
  | pipelineBarrier (transitions : List ImageTransition)
  | beginRendering (info : RenderingInfoM)
  | drawCallback
  | endRendering
  | endCommandBuffer
  | queueSubmit (queue waitSem waitStage signalSem fence : Nat)
  | queuePresent (waitSem imageIndex : Nat)
deriving DecidableEq, Repr

/-- `MAX_FRAMES_IN_FLIGHT` (primary_renderer.rs:16). -/
abbrev MAX_FRAMES_IN_FLIGHT : Nat := 2

/-- `FrameSet<T> = [T; MAX_FRAMES_IN_FLIGHT]` (primary_renderer.rs:18). -/
structure FrameSet (α : Type) where
  slot0 : α
  slot1 : α
deriving DecidableEq, Repr

/-- Index a `FrameSet` by a slot in `[0, MAX_FRAMES_IN_FLIGHT)`. -/
def FrameSet.get {α : Type} (s : FrameSet α) : Fin MAX_FRAMES_IN_FLIGHT → α
  | ⟨0, _⟩ => s.slot0
  | ⟨1, _⟩ => s.slot1

/-- Update one slot of a `FrameSet`. -/
def FrameSet.setSlot {α : Type} (s : FrameSet α) :
    Fin MAX_FRAMES_IN_FLIGHT → α → FrameSet α
  | ⟨0, _⟩, x => { s with slot0 := x }
  | ⟨1, _⟩, x => { s with slot1 := x }

/-- `PrimaryRenderer` (primary_renderer.rs:20-31).  Handles are numbers.
`fence_signaled` is the model of the GPU environment: per slot, whether the
completion fence is signaled or will be signaled by a submitted batch; it is
`true` for both slots at construction (fences are created pre-signaled,
primary_renderer.rs:36). -/
structure PrimaryRenderer where
  graphics_queue : Nat
  frame_sync_infos : FrameSet FrameSyncInfo
  fences : FrameSet Nat
  fence_signaled : FrameSet Bool
  render_area : Option Rect2D
  clear_values : List (Option ClearValue)
  current_frame : Fin MAX_FRAMES_IN_FLIGHT
deriving DecidableEq, Repr

/-- `PrimaryRenderer::set_clear_value` (primary_renderer.rs:64-70):
grow the table with `None` entries to length `index + 1` when it is too
short, then overwrite entry `index`. -/
def set_clear_value (r : PrimaryRenderer) (index : Nat) (value : Option ClearValue) :
    PrimaryRenderer :=
  let grown := if r.clear_values.length ≤ index then
      r.clear_values ++ List.replicate (index + 1 - r.clear_values.length) none
    else r.clear_values
  { r with clear_values := grown.set index value }

/-- `PrimaryRenderer::set_render_area` (primary_renderer.rs:72-74). -/
def set_render_area (r : PrimaryRenderer) (area : Option Rect2D) : PrimaryRenderer :=
  { r with render_area := area }

/-- The generic `RenderTargetExt::render_frame` (render_target.rs:68-76):
if the prelude (acquire) fails, return with no callback and no postlude;
otherwise run the callback on the acquired frame info and then the postlude
unconditionally.  The callback and the postlude are represented by the
traces of events they emit. -/
def renderFrame (prelude : Except Unit FrameRenderInfo)
    (f : FrameRenderInfo → List Ev) (postlude : FrameRenderInfo → List Ev) :
    List Ev :=
  match prelude with
  | .error _ => []
  | .ok info => f info ++ postlude info

/-- `SwapchainRenderTarget::render_frame_postlude` (render_target.rs:277-292):
present the acquired image index, waiting on `render_finished`. -/
def swapchainPostlude (sync : FrameSyncInfo) (info : FrameRenderInfo) : List Ev :=
  [Ev.queuePresent sync.render_finished info.image_index]

/-- The closure passed to `render_frame` by `render_to_target`
(primary_renderer.rs:86-229).  `beginOk` is the outcome of the fallible
`CommandBuffer::begin`; on failure the closure returns before recording
anything or submitting (the recorder was never constructed, so no
end-recording call is issued either).  On success it records the pre-pass
barriers (when any), the dynamic rendering pass around the caller's draw
callback, the post-pass barriers (when any), ends recording, and submits
once on the main queue waiting `image_available` at TOP_OF_PIPE and
signaling `render_finished` and the slot's fence. -/
def renderClosure (r : PrimaryRenderer) (beginOk : Bool) (info : FrameRenderInfo) :
    List Ev :=
  let sync := r.frame_sync_infos.get r.current_frame
  let fence := r.fences.get r.current_frame
  if beginOk then
    let t1 := imageTransitions1 info.color_attachments
    let t2 := imageTransitions2 info.color_attachments
    let rendering_info : RenderingInfoM :=
      { render_area := r.render_area.getD (Rect2D.fromExtent info.extent)
        color_attachments := colorAttachmentInfos r.clear_values info.color_attachments
        layer_count := 1
        view_mask := 0 }
    [Ev.beginCommandBuffer true]
      ++ (if t1.isEmpty then [] else [Ev.pipelineBarrier t1])
      ++ [Ev.beginRendering rendering_info, Ev.drawCallback, Ev.endRendering]
      ++ (if t2.isEmpty then [] else [Ev.pipelineBarrier t2])
      ++ [Ev.endCommandBuffer,
          Ev.queueSubmit r.graphics_queue sync.image_available STAGE_TOP_OF_PIPE
            sync.render_finished fence]
  else
    [Ev.beginCommandBuffer false]

/-- `PrimaryRenderer::begin_frame` (primary_renderer.rs:52-58) followed by
`render_frame` on the target and `end_frame` (primary_renderer.rs:60-62):
one whole `render_to_target` cycle (primary_renderer.rs:76-233).
`acq` is the outcome of the target's acquire phase; the target's present
phase is the swapchain postlude.  The fence-signaled flag of the slot
becomes false at the reset and true again exactly when the cycle submits
(acquire and begin both succeeded). -/
def render_to_target (r : PrimaryRenderer) (acq : Option FrameRenderInfo)
    (beginOk : Bool) : PrimaryRenderer × List Ev :=
  let slot := r.current_frame
  let fence := r.fences.get slot
  let sync := r.frame_sync_infos.get slot
  let beginEvs := [Ev.waitFence fence (r.fence_signaled.get slot), Ev.resetFence fence]
  let r1 := { r with fence_signaled := r.fence_signaled.setSlot slot false }
  let prelude : Except Unit FrameRenderInfo :=
    match acq with
    | none => .error ()
    | some info => .ok info
  let frameEvs := renderFrame prelude (renderClosure r1 beginOk) (swapchainPostlude sync)
  let submitted := acq.isSome && beginOk
  let r2 := { r1 with
    fence_signaled := if submitted then r1.fence_signaled.setSlot slot true
                      else r1.fence_signaled
    current_frame := slot + 1 }
  (r2, beginEvs ++ frameEvs)

/-- Run several consecutive `render_to_target` cycles, concatenating traces. -/
def runCycles (r : PrimaryRenderer) :
    List (Option FrameRenderInfo × Bool) → PrimaryRenderer × List Ev
  | [] => (r, [])
  | (acq, b) :: rest =>
    let step := render_to_target r acq b
    let tail := runCycles step.1 rest
    (tail.1, step.2 ++ tail.2)

/-- The slot-cursor value at the start of each cycle of a run. -/
def cycleSlots (r : PrimaryRenderer) :
    List (Option FrameRenderInfo × Bool) → List Nat
  | [] => []
  | (acq, b) :: rest =>
    (r.current_frame : Nat) :: cycleSlots (render_to_target r acq b).1 rest

/-- The state of a constructed `SwapchainRenderTarget` relevant to acquire
(render_target.rs:78-91): image and view handles, format, extent. -/
structure SwapchainRenderTarget where
  extent : Extent2D
  format : Nat
  images : List Nat
  image_views : List Nat
deriving DecidableEq, Repr

/-- `SwapchainRenderTarget::render_frame_prelude` (render_target.rs:241-275):
on a successful acquire of `image_index`, return a frame info with exactly
one color attachment for that image, declared initial state
(UNDEFINED, NONE, queue family 0) and declared final state
(PRESENT_SRC_KHR, NONE, queue family 0); a failed acquire is an error. -/
def swapchainPrelude (t : SwapchainRenderTarget) (acquired : Option Nat) :
    Except Unit FrameRenderInfo :=
  match acquired with
  | none => .error ()
  | some image_index =>
    .ok { color_attachments :=
            [{ image := t.images.getD image_index 0
               image_view := t.image_views.getD image_index 0
               format := t.format
               initial_state := { layout := LAYOUT_UNDEFINED, access := ACCESS2_NONE,
                                  queue_family := 0 }
               final_state := { layout := LAYOUT_PRESENT_SRC_KHR, access := ACCESS2_NONE,
                                queue_family := 0 } }]
          extent := t.extent
          image_index := image_index }

/-- The requested swapchain image count (render_target.rs:136-143), on u32
surface capability values; `u32` addition is modelled with an explicit
wrap modulo 2 ^ 32. -/
def imageCount (min_image_count max_image_count : Nat) : Nat :=
  if max_image_count > 0 then
    Nat.min max_image_count ((min_image_count + 1) % 2 ^ 32)
  else
    (min_image_count + 1) % 2 ^ 32

/-- A concrete renderer as constructed by `PrimaryRenderer::new`
(primary_renderer.rs:34-50): distinct semaphore and fence handles per slot,
both fences pre-signaled, empty clear-value table, no render-area override,
slot cursor 0. -/
def renderer0 : PrimaryRenderer :=
  { graphics_queue := 7
    frame_sync_infos := { slot0 := { image_available := 10, render_finished := 20 }
                          slot1 := { image_available := 11, render_finished := 21 } }
    fences := { slot0 := 30, slot1 := 31 }
    fence_signaled := { slot0 := true, slot1 := true }
    render_area := none
    clear_values := []
    current_frame := 0 }

/-- The mock frame info of the round-trip scenario: one attachment with
initial state (undefined, none, family 0) and final state
(present-ready, none, family 0). -/
def mockInfo : FrameRenderInfo :=
  { color_attachments :=
      [{ image := 1
         image_view := 2
         format := 3
         initial_state := { layout := LAYOUT_UNDEFINED, access := ACCESS2_NONE,
                            queue_family := 0 }
         final_state := { layout := LAYOUT_PRESENT_SRC_KHR, access := ACCESS2_NONE,
                          queue_family := 0 } }]
    extent := { width := 640, height := 480 }
    image_index := 0 }

/-- Event classifiers used to state trace properties. -/
def Ev.isSubmit : Ev → Bool
  | .queueSubmit _ _ _ _ _ => true
  | _ => false

def Ev.isPresent : Ev → Bool
  | .queuePresent _ _ => true
  | _ => false

def Ev.isBarrier : Ev → Bool
  | .pipelineBarrier _ => true
  | _ => false

/-- Tag a submission `true` and a present `false`, dropping other events. -/
def submitPresentTag : Ev → Option Bool
  | .queueSubmit _ _ _ _ _ => some true
  | .queuePresent _ _ => some false
  | _ => none

/-- The render area of a begin-rendering event, if any. -/
def renderingAreaOf : Ev → Option Rect2D
  | .beginRendering info => some info.render_area
  | _ => none

theorem FrameSet.get_setSlot_self {α : Type} (s : FrameSet α)
    (i : Fin MAX_FRAMES_IN_FLIGHT) (x : α) : (s.setSlot i x).get i = x := by
  fin_cases i <;> rfl

theorem List.getD_set_self' {α : Type} (l : List α) (i : Nat) (x d : α)
    (h : i < l.length) : (l.set i x).getD i d = x := by
  induction l generalizing i with
  | nil => simp at h
  | cons hd tl ih =>
    cases i with
    | zero => rfl
    | succ n => simpa [List.getD] using ih n (by simpa using h)

theorem List.getD_set_ne' {α : Type} (l : List α) (i j : Nat) (x d : α)
    (h : j ≠ i) : (l.set i x).getD j d = l.getD j d := by
  induction l generalizing i j with
  | nil => rfl
  | cons hd tl ih =>
    cases i with
    | zero =>
      cases j with
      | zero => exact absurd rfl h
      | succ m => rfl
    | succ n =>
      cases j with
      | zero => rfl
      | succ m => simpa [List.getD] using ih n m (by omega)

theorem List.getD_append_replicate_self {α : Type} (l : List α) (k j : Nat)
    (d : α) : (l ++ List.replicate k d).getD j d = l.getD j d := by
  induction l generalizing j with
  | nil =>
    induction k generalizing j with
    | zero => rfl
    | succ n ih =>
      cases j with
      | zero => rfl
      | succ m => exact ih m
  | cons hd tl ih =>
    cases j with
    | zero => rfl
    | succ m => simpa [List.getD] using ih m

/-- Entry `index` of the clear-value table reads back as the value just set. -/
theorem set_clear_value_getD_self (r : PrimaryRenderer) (index : Nat)
    (value : Option ClearValue) :
    (set_clear_value r index value).clear_values.getD index none = value := by
  unfold set_clear_value
  by_cases h : r.clear_values.length ≤ index
  · simp only [h, if_pos]
    apply List.getD_set_self'
    simp [List.length_append, List.length_replicate]
    omega
  · simp only [h, if_neg, if_false]
    exact List.getD_set_self' _ _ _ _ (by omega)

/-- Entries other than `index` of the clear-value table are unchanged by
`set_clear_value` (including those beyond the old length, which stay `none`). -/
theorem set_clear_value_getD_ne (r : PrimaryRenderer) (index j : Nat)
    (value : Option ClearValue) (h : j ≠ index) :
    (set_clear_value r index value).clear_values.getD j none =
      r.clear_values.getD j none := by
  unfold set_clear_value
  by_cases hlen : r.clear_values.length ≤ index
  · simp only [hlen, if_pos]
    rw [List.getD_set_ne' _ _ _ _ _ h, List.getD_append_replicate_self]
  · simp only [hlen, if_neg, if_false]
    exact List.getD_set_ne' _ _ _ _ _ h

/-- Setting at an index not below the current length grows the table to
length `index + 1`. -/
theorem set_clear_value_length_grow (r : PrimaryRenderer) (index : Nat)
    (value : Option ClearValue) (h : r.clear_values.length ≤ index) :
    (set_clear_value r index value).clear_values.length = index + 1 := by
  unfold set_clear_value
  simp [h, List.length_set, List.length_append, List.length_replicate]
  omega

/-- Entry `i` of the recorded rendering-attachment list is determined by
attachment `i` and entry `i` of the clear-value table. -/
theorem colorAttachmentInfos_getElem? (cvs : List (Option ClearValue))
    (atts : List FrameRenderAttachment) (i : Nat) :
    (colorAttachmentInfos cvs atts)[i]? = atts[i]?.map (fun a =>
      { image_layout := LAYOUT_COLOR_ATTACHMENT_OPTIMAL
        load_op := match cvs.getD i none with
          | none => LOAD_OP_LOAD
          | some _ => LOAD_OP_CLEAR
        clear_value := (cvs.getD i none).getD ClearValue.defaultValue
        store_op := STORE_OP_STORE
        image_view := a.image_view }) := by
  unfold colorAttachmentInfos
  rw [List.getElem?_map, List.getElem?_enum]
  cases atts[i]? <;> rfl

/-- The mock attachment of `mockInfo`. -/
def attEx : FrameRenderAttachment :=
  { image := 1
    image_view := 2
    format := 3
    initial_state := { layout := LAYOUT_UNDEFINED, access := ACCESS2_NONE,
                       queue_family := 0 }
    final_state := { layout := LAYOUT_PRESENT_SRC_KHR, access := ACCESS2_NONE,
                     queue_family := 0 } }

/-- A concrete swapchain render target and the frame info its prelude
returns for acquired image index 1. -/
def swapEx : SwapchainRenderTarget :=
  { extent := { width := 800, height := 600 }, format := 44,
    images := [5, 6, 7], image_views := [8, 9, 10] }

def swapInfoEx : FrameRenderInfo :=
  { color_attachments :=
      [{ image := 6
         image_view := 9
         format := 44
         initial_state := { layout := LAYOUT_UNDEFINED, access := ACCESS2_NONE,
                            queue_family := 0 }
         final_state := { layout := LAYOUT_PRESENT_SRC_KHR, access := ACCESS2_NONE,
                          queue_family := 0 } }]
    extent := { width := 800, height := 600 }
    image_index := 1 }

/-- Claim C1: the generic render-frame wrapper aborts the whole frame silently
when the acquire phase fails -- the callback's events and the present never
happen and the trace is empty (at the cycle level, a failed acquire leaves
only the fence wait and reset) -- while on a successful acquire the callback
runs on the acquired frame info and the present phase follows unconditionally. -/
theorem renderFrame_skip_on_failed_acquire
    (f postlude : FrameRenderInfo → List Ev) (pre : Except Unit FrameRenderInfo)
    (r : PrimaryRenderer) (beginOk : Bool) :
    (pre = .error () → renderFrame pre f postlude = []) ∧
    (∀ info, pre = .ok info → renderFrame pre f postlude = f info ++ postlude info) ∧
    ((render_to_target r none beginOk).2 =
      [Ev.waitFence (r.fences.get r.current_frame) (r.fence_signaled.get r.current_frame),
       Ev.resetFence (r.fences.get r.current_frame)]) := by
  refine ⟨?_, ?_, ?_⟩
  · intro h
    subst h
    rfl
  · intro info h
    subst h
    rfl
  · rfl

theorem renderFrame_skip_on_failed_acquire_witness :
    renderFrame (.error ()) (fun _ => [Ev.drawCallback])
        (swapchainPostlude { image_available := 10, render_finished := 20 }) = [] ∧
    renderFrame (.ok mockInfo) (fun _ => [Ev.drawCallback])
        (swapchainPostlude { image_available := 10, render_finished := 20 }) =
      [Ev.drawCallback] ++
        swapchainPostlude { image_available := 10, render_finished := 20 } mockInfo :=
  ⟨(renderFrame_skip_on_failed_acquire _ _ (.error ()) renderer0 true).1 rfl,
   (renderFrame_skip_on_failed_acquire _ _ (.ok mockInfo) renderer0 true).2.1 mockInfo rfl⟩

/-- Claim C3: a pre-pass transition is emitted for an attachment exactly when
its declared initial state differs from (COLOR_ATTACHMENT_OPTIMAL,
COLOR_ATTACHMENT_WRITE, queue family 0), and then it goes from the declared
initial state to that canonical state; symmetrically a post-pass transition
is emitted exactly when the declared final state differs from the canonical
state, and then it goes from the canonical state to the declared final
state; and a successful frame records exactly the nonempty pre-pass and
post-pass barrier batches, in that order. -/
theorem barrier_elision_iff (a : FrameRenderAttachment) (r : PrimaryRenderer)
    (info : FrameRenderInfo) :
    (preTransition a = none ↔
      a.initial_state = { layout := LAYOUT_COLOR_ATTACHMENT_OPTIMAL,
                          access := ACCESS2_COLOR_ATTACHMENT_WRITE, queue_family := 0 }) ∧
    (∀ t, preTransition a = some t →
      t.image = a.image ∧
      t.src_state = (STAGE2_TOP_OF_PIPE, a.initial_state.layout, a.initial_state.access,
                     a.initial_state.queue_family) ∧
      t.dst_state = (STAGE2_COLOR_ATTACHMENT_OUTPUT, LAYOUT_COLOR_ATTACHMENT_OPTIMAL,
                     ACCESS2_COLOR_ATTACHMENT_WRITE, 0)) ∧
    (postTransition a = none ↔
      a.final_state = { layout := LAYOUT_COLOR_ATTACHMENT_OPTIMAL,
                        access := ACCESS2_COLOR_ATTACHMENT_WRITE, queue_family := 0 }) ∧
    (∀ t, postTransition a = some t →
      t.image = a.image ∧
      t.src_state = (STAGE2_TOP_OF_PIPE, LAYOUT_COLOR_ATTACHMENT_OPTIMAL,
                     ACCESS2_COLOR_ATTACHMENT_WRITE, 0) ∧
      t.dst_state = (STAGE2_BOTTOM_OF_PIPE, a.final_state.layout, a.final_state.access,
                     a.final_state.queue_family)) ∧
    ((render_to_target r (some info) true).2.filter Ev.isBarrier =
      (if (imageTransitions1 info.color_attachments).isEmpty then []
       else [Ev.pipelineBarrier (imageTransitions1 info.color_attachments)]) ++
      (if (imageTransitions2 info.color_attachments).isEmpty then []
       else [Ev.pipelineBarrier (imageTransitions2 info.color_attachments)])) := by
  obtain ⟨img, iv, fmt, ⟨il, ia, iq⟩, ⟨fl, fa, fq⟩⟩ := a
  refine ⟨?_, ?_, ?_, ?_, ?_⟩
  · unfold preTransition
    by_cases h : (il = LAYOUT_COLOR_ATTACHMENT_OPTIMAL ∧
        ia = ACCESS2_COLOR_ATTACHMENT_WRITE ∧ iq = 0)
    · simp [h, FrameRenderAttachmentImageStateExternal.mk.injEq, h.1, h.2.1, h.2.2]
    · simp [h, FrameRenderAttachmentImageStateExternal.mk.injEq]
  · intro t ht
    unfold preTransition at ht
    split at ht
    · exact absurd ht (by simp)
    · obtain rfl := (Option.some.injEq _ _).mp ht.symm
      exact ⟨rfl, rfl, rfl⟩
  · unfold postTransition
    by_cases h : (fl = LAYOUT_COLOR_ATTACHMENT_OPTIMAL ∧
        fa = ACCESS2_COLOR_ATTACHMENT_WRITE ∧ fq = 0)
    · simp [h, FrameRenderAttachmentImageStateExternal.mk.injEq, h.1, h.2.1, h.2.2]
    · simp [h, FrameRenderAttachmentImageStateExternal.mk.injEq]
  · intro t ht
    unfold postTransition at ht
    split at ht
    · exact absurd ht (by simp)
    · obtain rfl := (Option.some.injEq _ _).mp ht.symm
      exact ⟨rfl, rfl, rfl⟩
  · unfold render_to_target renderFrame renderClosure swapchainPostlude
    cases h1 : (imageTransitions1 info.color_attachments).isEmpty <;>
      cases h2 : (imageTransitions2 info.color_attachments).isEmpty <;>
        simp [h1, h2, Ev.isBarrier, List.filter_append]

theorem barrier_elision_iff_witness :
    ((preTransition attEx).getD default).image = attEx.image ∧
    ((preTransition attEx).getD default).src_state =
      (STAGE2_TOP_OF_PIPE, attEx.initial_state.layout, attEx.initial_state.access,
       attEx.initial_state.queue_family) ∧
    ((preTransition attEx).getD default).dst_state =
      (STAGE2_COLOR_ATTACHMENT_OUTPUT, LAYOUT_COLOR_ATTACHMENT_OPTIMAL,
       ACCESS2_COLOR_ATTACHMENT_WRITE, 0) := by
  have h := (barrier_elision_iff attEx renderer0 mockInfo).2.1
    ((preTransition attEx).getD default) rfl
  exact h

/-- Claim C6: a frame whose acquire and begin-recording both succeed performs
exactly one queue submission, on the main queue, waiting on the current
slot's image-available semaphore at the top-of-pipe stage and signaling the
current slot's render-finished semaphore and the current slot's completion
fence. -/
theorem single_submission_per_successful_frame (r : PrimaryRenderer)
    (info : FrameRenderInfo) :
    (render_to_target r (some info) true).2.filter Ev.isSubmit =
      [Ev.queueSubmit r.graphics_queue
        (r.frame_sync_infos.get r.current_frame).image_available STAGE_TOP_OF_PIPE
        (r.frame_sync_infos.get r.current_frame).render_finished
        (r.fences.get r.current_frame)] := by
  unfold render_to_target renderFrame renderClosure swapchainPostlude
  cases h1 : (imageTransitions1 info.color_attachments).isEmpty <;>
    cases h2 : (imageTransitions2 info.color_attachments).isEmpty <;>
      simp [h1, h2, Ev.isSubmit, List.filter_append]

/-- Claim C9 (corrected reading is the claim itself): the requested swapchain
image count is the reported minimum plus one, capped at the reported maximum
when that maximum is nonzero; stated for u32 capability values that do not
overflow on the increment. -/
theorem image_count_policy (min_image_count max_image_count : Nat)
    (h : min_image_count + 1 < 2 ^ 32) :
    imageCount min_image_count max_image_count =
      if max_image_count > 0 then Nat.min (min_image_count + 1) max_image_count
      else min_image_count + 1 := by
  unfold imageCount
  rw [Nat.mod_eq_of_lt h]
  by_cases hm : max_image_count > 0
  · simp [hm, Nat.min_comm]
  · simp [hm]

theorem image_count_policy_witness :
    imageCount 2 4 = if 4 > 0 then Nat.min (2 + 1) 4 else 2 + 1 :=
  image_count_policy 2 4 (by norm_num)

/-- Claim C10: when acquire succeeds but opening the recording scope fails,
the cycle's trace is exactly the fence wait, the fence reset, the failed
begin call, and the present -- so nothing is recorded and nothing is
submitted, yet the present phase still runs -- and the slot's completion
fence is left reset with no pending signal. -/
theorem begin_failure_presents_without_submission (r : PrimaryRenderer)
    (info : FrameRenderInfo) :
    (render_to_target r (some info) false).2 =
      [Ev.waitFence (r.fences.get r.current_frame) (r.fence_signaled.get r.current_frame),
       Ev.resetFence (r.fences.get r.current_frame),
       Ev.beginCommandBuffer false,
       Ev.queuePresent (r.frame_sync_infos.get r.current_frame).render_finished
         info.image_index] ∧
    (render_to_target r (some info) false).1.fence_signaled.get r.current_frame =
      false := by
  constructor
  · rfl
  · show (r.fence_signaled.setSlot r.current_frame false).get r.current_frame = false
    exact FrameSet.get_setSlot_self _ _ _

/-- Claim C4: after `set_clear_value i (some v)` attachment `i`'s recorded
load op is CLEAR with clear value `v`; after `set_clear_value i none`, or
when entry `i` of the table reads `none` (never set, or beyond the table's
length), the load op is LOAD; setting entry `i` leaves every other entry
unchanged; and setting at an index not below the current length grows the
table to length `i + 1`. -/
theorem clear_value_table_semantics (r : PrimaryRenderer) (i j : Nat)
    (v : ClearValue) (atts : List FrameRenderAttachment) (a : FrameRenderAttachment)
    (ha : atts[i]? = some a) :
    ((colorAttachmentInfos (set_clear_value r i (some v)).clear_values atts)[i]? =
      some { image_layout := LAYOUT_COLOR_ATTACHMENT_OPTIMAL, load_op := LOAD_OP_CLEAR,
             clear_value := v, store_op := STORE_OP_STORE,
             image_view := a.image_view }) ∧
    ((colorAttachmentInfos (set_clear_value r i none).clear_values atts)[i]? =
      some { image_layout := LAYOUT_COLOR_ATTACHMENT_OPTIMAL, load_op := LOAD_OP_LOAD,
             clear_value := ClearValue.defaultValue, store_op := STORE_OP_STORE,
             image_view := a.image_view }) ∧
    (r.clear_values.getD i none = none →
      (colorAttachmentInfos r.clear_values atts)[i]? =
        some { image_layout := LAYOUT_COLOR_ATTACHMENT_OPTIMAL, load_op := LOAD_OP_LOAD,
               clear_value := ClearValue.defaultValue, store_op := STORE_OP_STORE,
               image_view := a.image_view }) ∧
    (j ≠ i → (set_clear_value r i (some v)).clear_values.getD j none =
      r.clear_values.getD j none) ∧
    (r.clear_values.length ≤ i →
      (set_clear_value r i (some v)).clear_values.length = i + 1) := by
  refine ⟨?_, ?_, ?_, ?_, ?_⟩
  · rw [colorAttachmentInfos_getElem?, ha, set_clear_value_getD_self]
    rfl
  · rw [colorAttachmentInfos_getElem?, ha, set_clear_value_getD_self]
    rfl
  · intro h
    rw [colorAttachmentInfos_getElem?, ha, h]
    rfl
  · intro h
    exact set_clear_value_getD_ne r i j (some v) h
  · intro h
    exact set_clear_value_length_grow r i (some v) h

theorem clear_value_table_semantics_witness :
    ((colorAttachmentInfos (set_clear_value renderer0 2 (some 5)).clear_values
        (List.replicate 3 attEx))[2]? =
      some { image_layout := LAYOUT_COLOR_ATTACHMENT_OPTIMAL, load_op := LOAD_OP_CLEAR,
             clear_value := 5, store_op := STORE_OP_STORE,
             image_view := attEx.image_view }) ∧
    ((set_clear_value renderer0 2 (some 5)).clear_values.getD 0 none =
      renderer0.clear_values.getD 0 none) ∧
    (set_clear_value renderer0 2 (some 5)).clear_values.length = 2 + 1 := by
  have h := clear_value_table_semantics renderer0 2 0 5 (List.replicate 3 attEx)
    attEx rfl
  exact ⟨h.1, h.2.2.2.1 (by decide), h.2.2.2.2 (by decide)⟩

/-- Counterexample to claim C5 as stated: the swapchain prelude declares the
queue family of both the initial and the final attachment state as family 0,
which is not the Vulkan ignored queue family (4294967295). -/
theorem swapchain_queue_family_not_ignored_ce :
    swapchainPrelude swapEx (some 1) = .ok swapInfoEx ∧
    swapInfoEx.color_attachments.map (fun a => a.initial_state.queue_family) = [0] ∧
    swapInfoEx.color_attachments.map (fun a => a.final_state.queue_family) = [0] ∧
    ¬ (0 = QUEUE_FAMILY_IGNORED) :=
  ⟨rfl, rfl, rfl, by decide⟩

/-- Claim C5 as amended: every successful acquire by the swapchain render
target returns exactly one color attachment, with declared initial state
(undefined layout, no access, queue family 0) and declared final state
(present-ready layout, no access, queue family 0). -/
theorem swapchain_acquire_states (t : SwapchainRenderTarget) (idx : Nat)
    (info : FrameRenderInfo) (h : swapchainPrelude t (some idx) = .ok info) :
    info.color_attachments =
      [{ image := t.images.getD idx 0
         image_view := t.image_views.getD idx 0
         format := t.format
         initial_state := { layout := LAYOUT_UNDEFINED, access := ACCESS2_NONE,
                            queue_family := 0 }
         final_state := { layout := LAYOUT_PRESENT_SRC_KHR, access := ACCESS2_NONE,
                          queue_family := 0 } }] ∧
    info.extent = t.extent ∧ info.image_index = idx := by
  unfold swapchainPrelude at h
  injection h with h2
  subst h2
  exact ⟨rfl, rfl, rfl⟩

theorem swapchain_acquire_states_witness :
    swapInfoEx.color_attachments =
      [{ image := swapEx.images.getD 1 0
         image_view := swapEx.image_views.getD 1 0
         format := swapEx.format
         initial_state := { layout := LAYOUT_UNDEFINED, access := ACCESS2_NONE,
                            queue_family := 0 }
         final_state := { layout := LAYOUT_PRESENT_SRC_KHR, access := ACCESS2_NONE,
                          queue_family := 0 } }] ∧
    swapInfoEx.extent = swapEx.extent ∧ swapInfoEx.image_index = 1 :=
  swapchain_acquire_states swapEx 1 swapInfoEx rfl

/-- Claim C8: a frame recorded after `set_render_area (some rect)` uses
render area `rect`; after `set_render_area none` it uses the full frame
extent; and a render cycle never changes the stored override, so the
setting persists across frames until changed. -/
theorem render_area_override (r : PrimaryRenderer) (rect : Rect2D)
    (info : FrameRenderInfo) (acq : Option FrameRenderInfo) (beginOk : Bool) :
    ((render_to_target (set_render_area r (some rect)) (some info) true).2.filterMap
        renderingAreaOf = [rect]) ∧
    ((render_to_target (set_render_area r none) (some info) true).2.filterMap
        renderingAreaOf = [Rect2D.fromExtent info.extent]) ∧
    ((render_to_target r acq beginOk).1.render_area = r.render_area) := by
  refine ⟨?_, ?_, ?_⟩
  · unfold render_to_target renderFrame renderClosure swapchainPostlude set_render_area
    cases h1 : (imageTransitions1 info.color_attachments).isEmpty <;>
      cases h2 : (imageTransitions2 info.color_attachments).isEmpty <;>
        simp [h1, h2, renderingAreaOf, List.filterMap_append]
  · unfold render_to_target renderFrame renderClosure swapchainPostlude set_render_area
    cases h1 : (imageTransitions1 info.color_attachments).isEmpty <;>
      cases h2 : (imageTransitions2 info.color_attachments).isEmpty <;>
        simp [h1, h2, renderingAreaOf, List.filterMap_append]
  · cases acq <;> rfl

/-- The round-trip scenario inputs: five consecutive cycles in which acquire
returns the mock frame info and begin-recording succeeds. -/
def fiveSuccessfulFrames : List (Option FrameRenderInfo × Bool) :=
  List.replicate 5 (some mockInfo, true)

/-- Claim C7: rendering five consecutive frames against an always-successful
mock target yields an alternating submit/present pattern (each of the five
presents preceded by exactly one submission), exactly five presents, slot
cursor values 0, 1, 0, 1, 0 at the start of the cycles, and a final cursor
of 1 (advanced mod 2 after each frame). -/
theorem round_trip_five_frames :
    ((runCycles renderer0 fiveSuccessfulFrames).2.filterMap submitPresentTag =
      [true, false, true, false, true, false, true, false, true, false]) ∧
    (((runCycles renderer0 fiveSuccessfulFrames).2.filter Ev.isPresent).length = 5) ∧
    cycleSlots renderer0 fiveSuccessfulFrames = [0, 1, 0, 1, 0] ∧
    ((runCycles renderer0 fiveSuccessfulFrames).1.current_frame : Nat) = 1 := by
  refine ⟨by decide, by decide, by decide, by decide⟩

/-- The run exhibiting the fence-starvation bug: acquisition fails on the
first cycle (slot 0, fence 30) and succeeds on the next two. -/
def failedAcquireRun : List (Option FrameRenderInfo × Bool) :=
  [(none, true), (some mockInfo, true), (some mockInfo, true)]

/-- Claim C2 fails on the code: in the run above, slot 0's fence (handle 30)
is reset during the failed first cycle, no submission signaling that fence
occurs before the next wait on it, and that next wait (the third cycle's
begin_frame) waits on a fence that is reset with no pending signal -- with
the source's unbounded timeout this wait blocks forever, so the failed
cycle's reset is never followed by a re-signaling submission. -/
theorem fence_reset_never_resignaled :
    (renderer0.fences.get 0 = 30) ∧
    Ev.resetFence 30 ∈
      ((runCycles renderer0 failedAcquireRun).2.takeWhile
        (fun e => e != Ev.waitFence 30 false)) ∧
    (((runCycles renderer0 failedAcquireRun).2.takeWhile
        (fun e => e != Ev.waitFence 30 false)).filter
      (fun e => match e with
        | Ev.queueSubmit _ _ _ _ fence => fence == 30
        | _ => false) = []) ∧
    Ev.waitFence 30 false ∈ (runCycles renderer0 failedAcquireRun).2 := by
  refine ⟨rfl, by decide, by decide, by decide⟩

end Vkism
